import Mathlib

/-!
# Verification of the `syunit` unit-algebra crate

Shallow embedding of the `syunit` Rust crate (files `src/lib.rs`,
`src/macros.rs`, `src/metric.rs`, `src/specials.rs`).

The crate wraps `f32` values in distinct unit types.  We model an `f32`
value as `FP`: either a finite exact rational, positive infinity,
negative infinity, or NaN.  Rounding and the signed zero are not
modelled (finite arithmetic is exact), matching the spec's phrasing
"exact beyond float subtraction" / "to floating-point precision".
Division, multiplication and comparisons follow IEEE semantics on the
non-finite values (NaN propagates, comparisons with NaN are false,
division of a nonzero finite value by zero yields a signed infinity).
-/

namespace Syunit

/-- Model of an `f32` value: a finite exact rational, `INFINITY`,
`NEG_INFINITY` or `NAN`. -/
inductive FP where
  | fin (x : ℚ)
  | inf
  | ninf
  | nan
deriving DecidableEq, Repr

namespace FP

/-- IEEE negation on the model (`-x`). -/
def neg : FP → FP
  | fin x => fin (-x)
  | inf => ninf
  | ninf => inf
  | nan => nan

/-- IEEE addition on the model (`x + y`): NaN propagates, opposite
infinities give NaN, finite addition is exact. -/
def add : FP → FP → FP
  | nan, _ => nan
  | _, nan => nan
  | fin x, fin y => fin (x + y)
  | inf, ninf => nan
  | ninf, inf => nan
  | inf, _ => inf
  | ninf, _ => ninf
  | fin _, inf => inf
  | fin _, ninf => ninf

/-- IEEE subtraction on the model (`x - y`): NaN propagates, same-signed
infinities give NaN, finite subtraction is exact. -/
def sub : FP → FP → FP
  | nan, _ => nan
  | _, nan => nan
  | fin x, fin y => fin (x - y)
  | inf, inf => nan
  | ninf, ninf => nan
  | inf, _ => inf
  | ninf, _ => ninf
  | fin _, inf => ninf
  | fin _, ninf => inf

/-- IEEE multiplication on the model (`x * y`): NaN propagates, zero
times infinity gives NaN, finite multiplication is exact. -/
def mul : FP → FP → FP
  | nan, _ => nan
  | _, nan => nan
  | fin x, fin y => fin (x * y)
  | inf, inf => inf
  | inf, ninf => ninf
  | ninf, inf => ninf
  | ninf, ninf => inf
  | inf, fin y => if 0 < y then inf else if y < 0 then ninf else nan
  | fin x, inf => if 0 < x then inf else if x < 0 then ninf else nan
  | ninf, fin y => if 0 < y then ninf else if y < 0 then inf else nan
  | fin x, ninf => if 0 < x then ninf else if x < 0 then inf else nan

/-- IEEE division on the model (`x / y`): NaN propagates, a nonzero
finite value divided by zero yields a signed infinity, `0/0` and
`inf/inf` yield NaN, a finite value divided by an infinity yields zero
(the signed zero is not modelled). -/
def div : FP → FP → FP
  | nan, _ => nan
  | _, nan => nan
  | fin x, fin y =>
      if y = 0 then (if 0 < x then inf else if x < 0 then ninf else nan)
      else fin (x / y)
  | fin _, inf => fin 0
  | fin _, ninf => fin 0
  | inf, fin y => if y < 0 then ninf else inf
  | ninf, fin y => if y < 0 then inf else ninf
  | inf, inf => nan
  | inf, ninf => nan
  | ninf, inf => nan
  | ninf, ninf => nan

/-- IEEE strict comparison (`x < y`): any comparison with NaN is false. -/
def lt : FP → FP → Bool
  | nan, _ => false
  | _, nan => false
  | fin x, fin y => decide (x < y)
  | ninf, ninf => false
  | ninf, _ => true
  | inf, _ => false
  | fin _, inf => true
  | fin _, ninf => false

/-- IEEE non-strict comparison (`x <= y`): any comparison with NaN is
false. -/
def le : FP → FP → Bool
  | nan, _ => false
  | _, nan => false
  | fin x, fin y => decide (x ≤ y)
  | ninf, _ => true
  | inf, inf => true
  | inf, _ => false
  | fin _, inf => true
  | fin _, ninf => false

end FP

/-! ## Unit types of `src/lib.rs` (Gamma/Phi/Delta revision)

Each Rust unit type is a newtype over `f32`; we model each as a
structure holding one `FP`. -/

/-- Rust `pub struct Time(pub f32);` (src/lib.rs:319). -/
structure Time where
  val : FP
deriving DecidableEq, Repr

/-- Rust `pub struct Gamma(pub f32);` — absolute (position) distance
(src/lib.rs:363). -/
structure Gamma where
  val : FP
deriving DecidableEq, Repr

/-- Rust `pub struct Phi(pub f32);` — absolute mathematical distance
(src/lib.rs:450). -/
structure Phi where
  val : FP
deriving DecidableEq, Repr

/-- Rust `pub struct Delta(pub f32);` — relative distance (src/lib.rs:523). -/
structure Delta where
  val : FP
deriving DecidableEq, Repr

/-- Rust `pub struct Velocity(pub f32);` (src/lib.rs:542). -/
structure Velocity where
  val : FP
deriving DecidableEq, Repr

/-- Rust `pub struct Acceleration(pub f32);` (src/lib.rs:569). -/
structure Acceleration where
  val : FP
deriving DecidableEq, Repr

/-- Rust `pub struct Jolt(pub f32);` (src/lib.rs:582). -/
structure Jolt where
  val : FP
deriving DecidableEq, Repr

/-- Rust `pub struct Inertia(pub f32);` (src/lib.rs:594). -/
structure Inertia where
  val : FP
deriving DecidableEq, Repr

/-- Rust `pub struct Force(pub f32);` (src/lib.rs:605). -/
structure Force where
  val : FP
deriving DecidableEq, Repr

/-! ### Sentinels from `basic_unit!` (src/lib.rs:66-74) -/

/-- Rust `Velocity::ZERO = Self(0.0)` (basic_unit!, src/lib.rs:68). -/
def Velocity.ZERO : Velocity := ⟨FP.fin 0⟩

/-- Rust `Velocity::INFINITY = Self(f32::INFINITY)` (basic_unit!,
src/lib.rs:70). -/
def Velocity.INFINITY : Velocity := ⟨FP.inf⟩

/-- Rust `Velocity::NEG_INFINITY = Self(f32::NEG_INFINITY)` (basic_unit!,
src/lib.rs:72). -/
def Velocity.NEG_INFINITY : Velocity := ⟨FP.ninf⟩

/-- Rust `Velocity::NAN = Self(f32::NAN)` (basic_unit!, src/lib.rs:74). -/
def Velocity.NAN : Velocity := ⟨FP.nan⟩

/-! ### Position/distance operators of the Gamma/Phi/Delta revision -/

/-- Rust `impl Sub<Gamma> for Gamma { type Output = Delta; ... Delta(self.0 - rhs.0) }`
(src/lib.rs:374-381). -/
def Gamma.subPos (p1 p2 : Gamma) : Delta := ⟨p1.val.sub p2.val⟩

/-- Rust `impl Add<Delta> for Gamma { type Output = Gamma; ... Self(self.0 + rhs.0) }`
(src/lib.rs:383-390). -/
def Gamma.addDelta (p : Gamma) (d : Delta) : Gamma := ⟨p.val.add d.val⟩

/-- Rust `impl Add<Gamma> for Delta { type Output = Delta; ... Self(self.0 + rhs.0) }`
(src/lib.rs:392-399). -/
def Delta.addGamma (d : Delta) (p : Gamma) : Delta := ⟨d.val.add p.val⟩

/-- Rust `impl AddAssign<Delta> for Gamma { ... self.0 += rhs.0 }`
(src/lib.rs:401-405), as the state-passing function `p = p + d`. -/
def Gamma.addAssignDelta (p : Gamma) (d : Delta) : Gamma := ⟨p.val.add d.val⟩

/-- Rust `impl Sub<Delta> for Gamma { type Output = Gamma; ... Self(self.0 - rhs.0) }`
(src/lib.rs:407-414). -/
def Gamma.subDelta (p : Gamma) (d : Delta) : Gamma := ⟨p.val.sub d.val⟩

/-- Rust `impl SubAssign for Gamma { ... self.0 -= rhs.0 }` (src/lib.rs:416-420),
as the state-passing function `p = p - q`. -/
def Gamma.subAssignPos (p q : Gamma) : Gamma := ⟨p.val.sub q.val⟩

/-- Rust `impl Sub<Phi> for Phi { type Output = Delta; ... Delta(self.0 - rhs.0) }`
(src/lib.rs:461-467). -/
def Phi.subPos (p1 p2 : Phi) : Delta := ⟨p1.val.sub p2.val⟩

/-- Rust `impl Add<Delta> for Phi { type Output = Phi; ... Phi(self.0 + rhs.0) }`
(src/lib.rs:469-476). -/
def Phi.addDelta (p : Phi) (d : Delta) : Phi := ⟨p.val.add d.val⟩

/-- Rust `impl Add<Phi> for Delta { type Output = Phi; ... Phi(self.0 + rhs.0) }`
(src/lib.rs:478-485). -/
def Delta.addPhi (d : Delta) (p : Phi) : Phi := ⟨d.val.add p.val⟩

/-- Rust `impl AddAssign<Delta> for Phi { ... self.0 += rhs.0 }`
(src/lib.rs:487-491), as the state-passing function `p = p + d`. -/
def Phi.addAssignDelta (p : Phi) (d : Delta) : Phi := ⟨p.val.add d.val⟩

/-- Rust `impl Sub<Delta> for Phi { type Output = Phi; ... Self(self.0 - rhs.0) }`
(src/lib.rs:493-500). -/
def Phi.subDelta (p : Phi) (d : Delta) : Phi := ⟨p.val.sub d.val⟩

/-- Rust `impl SubAssign<Delta> for Phi { fn sub_assign(&mut self, rhs: Delta) { self.0 += rhs.0; } }`
(src/lib.rs:502-506), as the state-passing function.  NOTE: the source
body ADDS (`+=`) the right-hand side. -/
def Phi.subAssignDelta (p : Phi) (d : Delta) : Phi := ⟨p.val.add d.val⟩

/-! ### The rate ladder, `derive_units!` (src/lib.rs:264-303)

`derive_units!(dist, vel, time)` generates
`vel * time -> dist`, `time * vel -> dist`,
`dist / vel -> time`, `dist / time -> vel`.
Instantiations: `derive_units!(Delta, Velocity, Time)` (src/lib.rs:545),
`derive_units!(Velocity, Acceleration, Time)` (src/lib.rs:572),
`derive_units!(Force, Acceleration, Inertia)` (src/lib.rs:573),
`derive_units!(Acceleration, Jolt, Time)` (src/lib.rs:585). -/

/-- Rust `impl Mul<Time> for Velocity { type Output = Delta; ... Delta(self.0 * rhs.0) }`
(derive_units!(Delta, Velocity, Time), src/lib.rs:267-274). -/
def Velocity.mulTime (v : Velocity) (t : Time) : Delta := ⟨v.val.mul t.val⟩

/-- Rust `impl Mul<Velocity> for Time { type Output = Delta; ... }`
(derive_units!(Delta, Velocity, Time), src/lib.rs:276-283). -/
def Time.mulVelocity (t : Time) (v : Velocity) : Delta := ⟨t.val.mul v.val⟩

/-- Rust `impl Div<Velocity> for Delta { type Output = Time; ... }`
(derive_units!(Delta, Velocity, Time), src/lib.rs:285-292). -/
def Delta.divVelocity (d : Delta) (v : Velocity) : Time := ⟨d.val.div v.val⟩

/-- Rust `impl Div<Time> for Delta { type Output = Velocity; ... Velocity(self.0 / rhs.0) }`
(derive_units!(Delta, Velocity, Time), src/lib.rs:294-301). -/
def Delta.divTime (d : Delta) (t : Time) : Velocity := ⟨d.val.div t.val⟩

/-- Rust `impl Mul<Time> for Acceleration { type Output = Velocity; ... }`
(derive_units!(Velocity, Acceleration, Time), src/lib.rs:572). -/
def Acceleration.mulTime (a : Acceleration) (t : Time) : Velocity := ⟨a.val.mul t.val⟩

/-- Rust `impl Div<Time> for Velocity { type Output = Acceleration; ... }`
(derive_units!(Velocity, Acceleration, Time), src/lib.rs:572). -/
def Velocity.divTime (v : Velocity) (t : Time) : Acceleration := ⟨v.val.div t.val⟩

/-- Rust `impl Mul<Time> for Jolt { type Output = Acceleration; ... }`
(derive_units!(Acceleration, Jolt, Time), src/lib.rs:585). -/
def Jolt.mulTime (j : Jolt) (t : Time) : Acceleration := ⟨j.val.mul t.val⟩

/-- Rust `impl Div<Time> for Acceleration { type Output = Jolt; ... }`
(derive_units!(Acceleration, Jolt, Time), src/lib.rs:585). -/
def Acceleration.divTime (a : Acceleration) (t : Time) : Jolt := ⟨a.val.div t.val⟩

/-- Rust `impl Mul<Inertia> for Acceleration { type Output = Force; ... }`
(derive_units!(Force, Acceleration, Inertia), src/lib.rs:573). -/
def Acceleration.mulInertia (a : Acceleration) (i : Inertia) : Force := ⟨a.val.mul i.val⟩

/-- Rust `impl Mul<Acceleration> for Inertia { type Output = Force; ... }`
(derive_units!(Force, Acceleration, Inertia), src/lib.rs:573). -/
def Inertia.mulAcceleration (i : Inertia) (a : Acceleration) : Force := ⟨i.val.mul a.val⟩

/-- Rust `impl Div<Acceleration> for Force { type Output = Inertia; ... }`
(derive_units!(Force, Acceleration, Inertia), src/lib.rs:573). -/
def Force.divAcceleration (f : Force) (a : Acceleration) : Inertia := ⟨f.val.div a.val⟩

/-- Rust `impl Div<Inertia> for Force { type Output = Acceleration; ... }`
(derive_units!(Force, Acceleration, Inertia), src/lib.rs:573). -/
def Force.divInertia (f : Force) (i : Inertia) : Acceleration := ⟨f.val.div i.val⟩

/-! ## Unit types of `src/metric.rs` (PositionMM/Millimeters revision)

These use the macros of `src/macros.rs`: `basic_unit!`,
`additive_unit!`, `position_unit!`. -/

/-- Rust `pub struct PositionMM(pub f32);` (src/metric.rs:15). -/
structure PositionMM where
  val : FP
deriving DecidableEq, Repr

/-- Rust `pub struct Millimeters(pub f32);` (src/metric.rs:23). -/
structure Millimeters where
  val : FP
deriving DecidableEq, Repr

/-- Rust `pub struct PositionM(pub f32);` (src/metric.rs:142). -/
structure PositionM where
  val : FP
deriving DecidableEq, Repr

/-- Rust `pub struct Meters(pub f32);` (src/metric.rs:151). -/
structure Meters where
  val : FP
deriving DecidableEq, Repr

/-- Rust `impl Add<Millimeters> for PositionMM { ... Self(self.0 + rhs.0) }`
(position_unit!(PositionMM, Millimeters), src/macros.rs:390-396). -/
def PositionMM.addDist (p : PositionMM) (d : Millimeters) : PositionMM := ⟨p.val.add d.val⟩

/-- Rust `impl Sub<Millimeters> for PositionMM { ... Self(self.0 - rhs.0) }`
(position_unit!(PositionMM, Millimeters), src/macros.rs:404-410). -/
def PositionMM.subDist (p : PositionMM) (d : Millimeters) : PositionMM := ⟨p.val.sub d.val⟩

/-- Rust `impl Sub<PositionMM> for PositionMM { type Output = Millimeters; ... }`
(position_unit!(PositionMM, Millimeters), src/macros.rs:418-424). -/
def PositionMM.subPos (p1 p2 : PositionMM) : Millimeters := ⟨p1.val.sub p2.val⟩

/-- Rust `impl Add<Meters> for PositionM { ... Self(self.0 + rhs.0) }`
(position_unit!(PositionM, Meters), src/macros.rs:390-396). -/
def PositionM.addDist (p : PositionM) (d : Meters) : PositionM := ⟨p.val.add d.val⟩

/-- Rust `impl Sub<Meters> for PositionM { ... Self(self.0 - rhs.0) }`
(position_unit!(PositionM, Meters), src/macros.rs:404-410). -/
def PositionM.subDist (p : PositionM) (d : Meters) : PositionM := ⟨p.val.sub d.val⟩

/-- Rust `impl Sub<PositionM> for PositionM { type Output = Meters; ... }`
(position_unit!(PositionM, Meters), src/macros.rs:418-424). -/
def PositionM.subPos (p1 p2 : PositionM) : Meters := ⟨p1.val.sub p2.val⟩

/-! ## `SpeedFactor` (src/specials.rs) -/

/-- Rust `pub struct SpeedFactor(f32);` (src/specials.rs:10). -/
structure SpeedFactor where
  val : FP
deriving DecidableEq, Repr

/-- Rust `impl TryFrom<f32> for SpeedFactor` (src/specials.rs:26-36):
`if (value <= 1.0) & (value > 0.0) { Ok(Self(value)) } else { Err(value) }`. -/
def SpeedFactor.tryFrom (value : FP) : Except FP SpeedFactor :=
  if (value.le (FP.fin 1)) && ((FP.fin 0).lt value) then
    Except.ok ⟨value⟩
  else
    Except.error value

/-- Rust `impl From<SpeedFactor> for f32 { ... value.0 }` (src/specials.rs:38-42). -/
def SpeedFactor.asF32 (s : SpeedFactor) : FP := s.val

/-- Rust `impl Mul<SpeedFactor> for SpeedFactor { ... SpeedFactor(self.0 * rhs.0) }`
(src/specials.rs:70-76) — a direct, unchecked construction. -/
def SpeedFactor.mulFactor (a b : SpeedFactor) : SpeedFactor := ⟨a.val.mul b.val⟩

/-- Rust `impl Mul<f32> for SpeedFactor` (src/specials.rs:79-86):
`SpeedFactor::try_from(self.0 * rhs).expect(...)`.  The `expect` panic
is modelled as `none`. -/
def SpeedFactor.mulF32 (s : SpeedFactor) (f : FP) : Option SpeedFactor :=
  (SpeedFactor.tryFrom (s.val.mul f)).toOption

/-- Rust `impl Mul<SpeedFactor> for f32` (src/specials.rs:88-95):
`SpeedFactor::try_from(self * rhs.0).expect(...)`, panic as `none`. -/
def SpeedFactor.f32Mul (f : FP) (s : SpeedFactor) : Option SpeedFactor :=
  (SpeedFactor.tryFrom (f.mul s.val)).toOption

/-- Rust `impl Div<f32> for SpeedFactor` (src/specials.rs:99-106):
the body is `SpeedFactor::try_from(self.0 * rhs).expect(...)` — a
MULTIPLICATION, transcribed as written; panic as `none`. -/
def SpeedFactor.divF32 (s : SpeedFactor) (f : FP) : Option SpeedFactor :=
  (SpeedFactor.tryFrom (s.val.mul f)).toOption

/-- Rust `impl Div<SpeedFactor> for f32` (src/specials.rs:108-115):
the body is `SpeedFactor::try_from(self * rhs.0).expect(...)` — a
MULTIPLICATION, transcribed as written; panic as `none`. -/
def SpeedFactor.f32Div (f : FP) (s : SpeedFactor) : Option SpeedFactor :=
  (SpeedFactor.tryFrom (f.mul s.val)).toOption

/-! ## `Time` into `Duration` (src/lib.rs:323-333) -/

/-- Maximum number of whole seconds a `core::time::Duration` can hold
(`u64::MAX`). -/
def durationMaxSecs : ℚ := 18446744073709551615

/-- Model of `core::time::Duration::from_secs_f32` (external standard
library function called by src/lib.rs:331).  Documented to panic when
the input is negative, not finite, or overflows `Duration`; the panic
is modelled as `none`, a successful conversion as the exact seconds
value. -/
def durationFromSecsF32 : FP → Option ℚ
  | FP.fin x => if 0 ≤ x ∧ x ≤ durationMaxSecs then some x else none
  | _ => none

/-- Rust `impl Into<Duration> for Time { ... Duration::from_secs_f32(self.0) }`
(src/lib.rs:323-333).  The commented-out negative-time fallback in the
source is disabled, so the conversion inherits the panic of
`from_secs_f32`, modelled as `none`. -/
def Time.intoDuration (t : Time) : Option ℚ :=
  durationFromSecsF32 t.val

/-! ## Transcendental methods of `basic_unit!` (src/lib.rs:112-128)

The trig methods act on the wrapped float and return a bare float; they
are generic over the unit type, so we model a generic scalar unit whose
wrapped value is viewed as a real number (exact transcendental
arithmetic, no rounding). -/

/-- A scalar unit value viewed with its wrapped float as a real number,
for the transcendental methods of `basic_unit!`. -/
structure RUnit where
  val : ℝ

/-- Rust `pub fn sin(self) -> f32 { self.0.sin() }` (basic_unit!,
src/lib.rs:112-116). -/
noncomputable def RUnit.sinF (u : RUnit) : ℝ := Real.sin u.val

/-- Rust `pub fn cos(self) -> f32 { self.0.tan() }` (basic_unit!,
src/lib.rs:118-122).  NOTE: the source body calls `tan`, transcribed as
written. -/
noncomputable def RUnit.cosF (u : RUnit) : ℝ := Real.tan u.val

/-- Rust `pub fn tan(self) -> f32 { self.0.tan() }` (basic_unit!,
src/lib.rs:124-128). -/
noncomputable def RUnit.tanF (u : RUnit) : ℝ := Real.tan u.val

/-! ## Operator-instance table

For the type-level claim "no `position + position` overload exists" we
record, as data, every `Add`/`AddAssign`/`Sub`/`SubAssign` impl between
unit types that the source declares (both revisions).  Impls whose
right-hand side is a bare `f32` are `Mul`/`Div` only and do not appear
here; `Mul`/`Div` impls are outside the table's scope. -/

/-- Names of the unit types declared by the crate. -/
inductive UType where
  | time | gamma | phi | delta | velocity | acceleration | jolt | inertia | force
  | positionMM | millimeters | mmPerSecond | mmPerSecond2 | mmPerSecond3
  | newtons | kilogramms | newtonMeters | kgMeter2
  | positionM | meters
  | positionRad | radians
deriving DecidableEq, Repr

/-- The additive operator kinds of Rust's `core::ops`. -/
inductive OpKind where
  | add | addAssign | sub | subAssign
deriving DecidableEq, Repr

/-- One declared operator impl: `lhs OP rhs -> out` (for the assigning
kinds, `out` is the left-hand type itself). -/
structure OpInst where
  kind : OpKind
  lhs : UType
  rhs : UType
  out : UType
deriving DecidableEq, Repr

/-- The four impls of `additive_unit!(u)` (src/lib.rs:26-60 and
src/macros.rs:348-384): `u + u -> u`, `u += u`, `u - u -> u`, `u -= u`. -/
def additiveOps (u : UType) : List OpInst :=
  [⟨OpKind.add, u, u, u⟩, ⟨OpKind.addAssign, u, u, u⟩,
   ⟨OpKind.sub, u, u, u⟩, ⟨OpKind.subAssign, u, u, u⟩]

/-- The five add/sub impls of `position_unit!(pos, unit)`
(src/macros.rs:388-428): `pos + unit -> pos`, `pos += unit`,
`pos - unit -> pos`, `pos -= unit`, `pos - pos -> unit`.  (The macro's
`impl_conversion!` line generates `From` conversions, not operators.) -/
def positionOps (pos unit : UType) : List OpInst :=
  [⟨OpKind.add, pos, unit, pos⟩, ⟨OpKind.addAssign, pos, unit, pos⟩,
   ⟨OpKind.sub, pos, unit, pos⟩, ⟨OpKind.subAssign, pos, unit, pos⟩,
   ⟨OpKind.sub, pos, pos, unit⟩]

/-- Every `Add`/`AddAssign`/`Sub`/`SubAssign` impl between unit types
declared in the source.

- `additive_unit!` on Time (src/lib.rs:321), Delta (525), Velocity (544),
  Acceleration (571), Jolt (584), Inertia (596), Force (607);
  on Millimeters (src/metric.rs:25), MMPerSecond (34), MMPerSecond2 (43),
  MMPerSecond3 (52), Newtons (60), Kilogramms (68), NewtonMeters (101),
  KgMeter2 (110), Meters (153).
- Explicit impls on Gamma/Delta (src/lib.rs:374-420) and on Phi/Delta
  (src/lib.rs:461-506).
- `position_unit!(PositionMM, Millimeters)` (src/metric.rs:17) and
  `position_unit!(PositionM, Meters)` (src/metric.rs:144).
- Modelled from the spec: `PositionRad` and `Radians` are declared in
  crate code missing from src/ (they are imported by src/metric.rs:4);
  per the spec's rotary system (§4.5, §4.3) they carry
  `position_unit!(PositionRad, Radians)` and `additive_unit!(Radians)`,
  the same shape as the millimeter family. -/
def providedOps : List OpInst :=
  additiveOps UType.time ++ additiveOps UType.delta ++
  additiveOps UType.velocity ++ additiveOps UType.acceleration ++
  additiveOps UType.jolt ++ additiveOps UType.inertia ++
  additiveOps UType.force ++
  -- Gamma (src/lib.rs:374-420)
  [⟨OpKind.sub, UType.gamma, UType.gamma, UType.delta⟩,
   ⟨OpKind.add, UType.gamma, UType.delta, UType.gamma⟩,
   ⟨OpKind.add, UType.delta, UType.gamma, UType.delta⟩,
   ⟨OpKind.addAssign, UType.gamma, UType.delta, UType.gamma⟩,
   ⟨OpKind.sub, UType.gamma, UType.delta, UType.gamma⟩,
   ⟨OpKind.subAssign, UType.gamma, UType.gamma, UType.gamma⟩] ++
  -- Phi (src/lib.rs:461-506)
  [⟨OpKind.sub, UType.phi, UType.phi, UType.delta⟩,
   ⟨OpKind.add, UType.phi, UType.delta, UType.phi⟩,
   ⟨OpKind.add, UType.delta, UType.phi, UType.phi⟩,
   ⟨OpKind.addAssign, UType.phi, UType.delta, UType.phi⟩,
   ⟨OpKind.sub, UType.phi, UType.delta, UType.phi⟩,
   ⟨OpKind.subAssign, UType.phi, UType.delta, UType.phi⟩] ++
  additiveOps UType.millimeters ++ additiveOps UType.mmPerSecond ++
  additiveOps UType.mmPerSecond2 ++ additiveOps UType.mmPerSecond3 ++
  additiveOps UType.newtons ++ additiveOps UType.kilogramms ++
  additiveOps UType.newtonMeters ++ additiveOps UType.kgMeter2 ++
  additiveOps UType.meters ++
  positionOps UType.positionMM UType.millimeters ++
  positionOps UType.positionM UType.meters ++
  -- Modelled from the spec (see the doc comment above)
  additiveOps UType.radians ++
  positionOps UType.positionRad UType.radians

/-- The position (absolute) types named by the claim. -/
def positionTypes : List UType :=
  [UType.gamma, UType.phi, UType.positionMM, UType.positionRad, UType.positionM]

/-! ## Helper lemmas on the float model -/

/-- Adding back an exact finite difference recovers the minuend. -/
lemma FP.add_fin_sub_fin (x1 x2 : ℚ) :
    (FP.fin x2).add (FP.fin (x1 - x2)) = FP.fin x1 := by
  show FP.fin (x2 + (x1 - x2)) = FP.fin x1
  exact congrArg FP.fin (by ring)

/-- Finite division by a nonzero finite value, multiplied back, is exact. -/
lemma FP.div_fin_mul_fin (q t : ℚ) (ht : t ≠ 0) :
    (((FP.fin q).div (FP.fin t)).mul (FP.fin t)) = FP.fin q := by
  simp [FP.div, ht, FP.mul, div_mul_cancel₀]

/-! ## Claim theorems -/

/-- C1: for all finite position values `p1, p2` of each position type
(Gamma, Phi, PositionMM, PositionM), `p1 - p2` is the paired distance
type wrapping exactly the subtraction of the wrapped values, and
`p2 + (p1 - p2) == p1`. -/
theorem position_sub_add_roundtrip :
    ∀ x1 x2 : ℚ,
      Gamma.subPos ⟨FP.fin x1⟩ ⟨FP.fin x2⟩ = (⟨FP.fin (x1 - x2)⟩ : Delta) ∧
      Gamma.addDelta ⟨FP.fin x2⟩ (Gamma.subPos ⟨FP.fin x1⟩ ⟨FP.fin x2⟩) = ⟨FP.fin x1⟩ ∧
      Phi.subPos ⟨FP.fin x1⟩ ⟨FP.fin x2⟩ = (⟨FP.fin (x1 - x2)⟩ : Delta) ∧
      Phi.addDelta ⟨FP.fin x2⟩ (Phi.subPos ⟨FP.fin x1⟩ ⟨FP.fin x2⟩) = ⟨FP.fin x1⟩ ∧
      PositionMM.subPos ⟨FP.fin x1⟩ ⟨FP.fin x2⟩ = (⟨FP.fin (x1 - x2)⟩ : Millimeters) ∧
      PositionMM.addDist ⟨FP.fin x2⟩ (PositionMM.subPos ⟨FP.fin x1⟩ ⟨FP.fin x2⟩) = ⟨FP.fin x1⟩ ∧
      PositionM.subPos ⟨FP.fin x1⟩ ⟨FP.fin x2⟩ = (⟨FP.fin (x1 - x2)⟩ : Meters) ∧
      PositionM.addDist ⟨FP.fin x2⟩ (PositionM.subPos ⟨FP.fin x1⟩ ⟨FP.fin x2⟩) = ⟨FP.fin x1⟩ := by
  intro x1 x2
  refine ⟨?_, ?_, ?_, ?_, ?_, ?_, ?_, ?_⟩ <;>
    simp [Gamma.subPos, Gamma.addDelta, Phi.subPos, Phi.addDelta,
      PositionMM.subPos, PositionMM.addDist, PositionM.subPos, PositionM.addDist,
      FP.add_fin_sub_fin, FP.sub]

/-- C2: no `Add` impl exists with both operands of the same position
type — for every position type P, no entry of the operator table is an
addition `P + P`. -/
theorem no_position_plus_position :
    ∀ p ∈ positionTypes, ∀ op ∈ providedOps,
      ¬(op.kind = OpKind.add ∧ op.lhs = p ∧ op.rhs = p) := by
  decide

/-- Closed instance of `no_position_plus_position` at Gamma and the
first table entry. -/
theorem no_position_plus_position_witness :
    ¬((OpInst.mk OpKind.add UType.time UType.time UType.time).kind = OpKind.add ∧
      (OpInst.mk OpKind.add UType.time UType.time UType.time).lhs = UType.gamma ∧
      (OpInst.mk OpKind.add UType.time UType.time UType.time).rhs = UType.gamma) :=
  no_position_plus_position UType.gamma (by decide)
    (OpInst.mk OpKind.add UType.time UType.time UType.time) (by decide)

/-- C3 counterexample: `0.0` lies in `[0.0, 1.0]`, yet
`SpeedFactor::try_from(0.0)` returns an error (the accepted interval is
the half-open `(0.0, 1.0]`, src/specials.rs:30). -/
theorem factor_tryFrom_zero_err :
    (0:ℚ) ≤ 0 ∧ (0:ℚ) ≤ 1 ∧
    SpeedFactor.tryFrom (FP.fin 0) = Except.error (FP.fin 0) := by
  refine ⟨le_refl 0, by norm_num, ?_⟩
  rfl

/-- C3 amended: `try_from` succeeds exactly on finite values in the
half-open interval `(0.0, 1.0]`, wrapping the value unchanged (so the
conversion back is exact); on every other input — `0.0`, negatives,
values above `1.0`, infinities and NaN — it returns an error carrying
the offending value. -/
theorem factor_tryFrom_spec :
    ∀ x : ℚ,
      (0 < x ∧ x ≤ 1 →
        SpeedFactor.tryFrom (FP.fin x) = Except.ok ⟨FP.fin x⟩ ∧
        SpeedFactor.asF32 ⟨FP.fin x⟩ = FP.fin x) ∧
      (¬(0 < x ∧ x ≤ 1) →
        SpeedFactor.tryFrom (FP.fin x) = Except.error (FP.fin x)) ∧
      SpeedFactor.tryFrom FP.inf = Except.error FP.inf ∧
      SpeedFactor.tryFrom FP.ninf = Except.error FP.ninf ∧
      SpeedFactor.tryFrom FP.nan = Except.error FP.nan := by
  intro x
  refine ⟨?_, ?_, rfl, rfl, rfl⟩
  · rintro ⟨h0, h1⟩
    simp [SpeedFactor.tryFrom, FP.le, FP.lt, h0, h1, SpeedFactor.asF32]
  · intro h
    rcases not_and_or.mp h with h' | h'
    · simp [SpeedFactor.tryFrom, FP.le, FP.lt, not_lt.mp (by simpa using h')]
    · simp [SpeedFactor.tryFrom, FP.le, FP.lt, not_le.mp (by simpa using h')]

/-- Closed instance of `factor_tryFrom_spec` at `x = 1/2` (inside the
interval) and `x = 2` (outside). -/
theorem factor_tryFrom_spec_witness :
    SpeedFactor.tryFrom (FP.fin (1/2)) = Except.ok ⟨FP.fin (1/2)⟩ ∧
    SpeedFactor.tryFrom (FP.fin 2) = Except.error (FP.fin 2) :=
  ⟨((factor_tryFrom_spec (1/2)).1 (by norm_num)).1,
   (factor_tryFrom_spec 2).2.1 (by norm_num)⟩

/-- C4 counterexample: for the factors wrapping `1.0` and `0.0` (both
wrapped values in `[0.0, 1.0]`), the `Mul` impl returns the factor
wrapping `0.0` directly, while the bound-validating path
(`SpeedFactor::try_from`) rejects that very product — so the
multiplication is not constructed through the validating path. -/
theorem factor_mul_unvalidated_cex :
    SpeedFactor.mulFactor ⟨FP.fin 1⟩ ⟨FP.fin 0⟩ = ⟨FP.fin 0⟩ ∧
    SpeedFactor.tryFrom ((FP.fin 1).mul (FP.fin 0)) = Except.error (FP.fin 0) := by
  constructor
  · simp [SpeedFactor.mulFactor, FP.mul]
  · norm_num [SpeedFactor.tryFrom, FP.mul, FP.le, FP.lt]

/-- C4 amended: the `Mul` impl between two factors constructs the
result directly, without re-validation; nevertheless, when both wrapped
values lie in `[0.0, 1.0]`, the product's wrapped value again lies in
`[0.0, 1.0]`. -/
theorem factor_mul_in_bounds :
    ∀ a b : ℚ, 0 ≤ a → a ≤ 1 → 0 ≤ b → b ≤ 1 →
      SpeedFactor.mulFactor ⟨FP.fin a⟩ ⟨FP.fin b⟩ = ⟨FP.fin (a * b)⟩ ∧
      0 ≤ a * b ∧ a * b ≤ 1 := by
  intro a b ha0 ha1 hb0 hb1
  refine ⟨by simp [SpeedFactor.mulFactor, FP.mul], mul_nonneg ha0 hb0, ?_⟩
  calc a * b ≤ 1 * 1 := mul_le_mul ha1 hb1 hb0 (by norm_num)
    _ = 1 := by norm_num

/-- Closed instance of `factor_mul_in_bounds` at `a = b = 1/2`. -/
theorem factor_mul_in_bounds_witness :
    SpeedFactor.mulFactor ⟨FP.fin (1/2)⟩ ⟨FP.fin (1/2)⟩ = ⟨FP.fin (1/2 * (1/2))⟩ ∧
    (0:ℚ) ≤ 1/2 * (1/2) ∧ (1/2 : ℚ) * (1/2) ≤ 1 :=
  factor_mul_in_bounds (1/2) (1/2) (by norm_num) (by norm_num) (by norm_num) (by norm_num)

/-- C5: the `cos` method of `basic_unit!` computes the tangent of the
wrapped value, not the cosine: at the wrapped value `π/4` it returns
`tan(π/4) = 1`, whereas the cosine of `π/4` is `√2/2 ≠ 1`. -/
theorem cos_method_is_tan :
    RUnit.cosF ⟨Real.pi / 4⟩ = 1 ∧ Real.cos (Real.pi / 4) ≠ 1 := by
  constructor
  · show Real.tan (Real.pi / 4) = 1
    exact Real.tan_pi_div_four
  · rw [Real.cos_pi_div_four]
    intro h
    have h2 : Real.sqrt 2 = 2 := by linarith
    have h4 : Real.sqrt 2 * Real.sqrt 2 = 2 :=
      Real.mul_self_sqrt (by norm_num)
    rw [h2] at h4
    norm_num at h4

/-- C6: `p -= d` on `Phi` disagrees with `p - d`: at `p = Phi(5.0)`,
`d = Delta(2.0)` the assigning form yields `Phi(7.0)` (the source body
adds) while `p - d` yields `Phi(3.0)`. -/
theorem phi_subAssign_adds :
    Phi.subAssignDelta ⟨FP.fin 5⟩ ⟨FP.fin 2⟩ = ⟨FP.fin 7⟩ ∧
    Phi.subDelta ⟨FP.fin 5⟩ ⟨FP.fin 2⟩ = ⟨FP.fin 3⟩ ∧
    (⟨FP.fin 7⟩ : Phi) ≠ ⟨FP.fin 3⟩ := by
  refine ⟨?_, ?_, by decide⟩
  · show Phi.mk ((FP.fin 5).add (FP.fin 2)) = ⟨FP.fin 7⟩
    norm_num [FP.add]
  · show Phi.mk ((FP.fin 5).sub (FP.fin 2)) = ⟨FP.fin 3⟩
    norm_num [FP.sub]

/-- C7: on every rung of the rate ladder and on the Force/Inertia
triangle, dividing a finite quantity by a finite nonzero time (resp.
inertia) and multiplying back recovers the quantity exactly. -/
theorem rate_ladder_roundtrip :
    ∀ q t : ℚ, t ≠ 0 →
      Velocity.mulTime (Delta.divTime ⟨FP.fin q⟩ ⟨FP.fin t⟩) ⟨FP.fin t⟩ = ⟨FP.fin q⟩ ∧
      Acceleration.mulTime (Velocity.divTime ⟨FP.fin q⟩ ⟨FP.fin t⟩) ⟨FP.fin t⟩ = ⟨FP.fin q⟩ ∧
      Jolt.mulTime (Acceleration.divTime ⟨FP.fin q⟩ ⟨FP.fin t⟩) ⟨FP.fin t⟩ = ⟨FP.fin q⟩ ∧
      Acceleration.mulInertia (Force.divInertia ⟨FP.fin q⟩ ⟨FP.fin t⟩) ⟨FP.fin t⟩ = ⟨FP.fin q⟩ := by
  intro q t ht
  refine ⟨?_, ?_, ?_, ?_⟩ <;>
    simp [Velocity.mulTime, Delta.divTime, Acceleration.mulTime, Velocity.divTime,
      Jolt.mulTime, Acceleration.divTime, Acceleration.mulInertia, Force.divInertia,
      FP.div_fin_mul_fin q t ht]

/-- Closed instance of `rate_ladder_roundtrip` at `q = 6`, `t = 2`. -/
theorem rate_ladder_roundtrip_witness :
    Velocity.mulTime (Delta.divTime ⟨FP.fin 6⟩ ⟨FP.fin 2⟩) ⟨FP.fin 2⟩ = ⟨FP.fin 6⟩ ∧
    Acceleration.mulTime (Velocity.divTime ⟨FP.fin 6⟩ ⟨FP.fin 2⟩) ⟨FP.fin 2⟩ = ⟨FP.fin 6⟩ ∧
    Jolt.mulTime (Acceleration.divTime ⟨FP.fin 6⟩ ⟨FP.fin 2⟩) ⟨FP.fin 2⟩ = ⟨FP.fin 6⟩ ∧
    Acceleration.mulInertia (Force.divInertia ⟨FP.fin 6⟩ ⟨FP.fin 2⟩) ⟨FP.fin 2⟩ = ⟨FP.fin 6⟩ :=
  rate_ladder_roundtrip 6 2 (by norm_num)

/-- C8: dividing a finite distance by a zero time is a total operation
returning the result type's sentinel: `INFINITY` for a positive
dividend, `NEG_INFINITY` for a negative one, `NAN` for a zero dividend. -/
theorem div_by_zero_sentinels :
    ∀ x : ℚ,
      (0 < x → Delta.divTime ⟨FP.fin x⟩ ⟨FP.fin 0⟩ = Velocity.INFINITY) ∧
      (x < 0 → Delta.divTime ⟨FP.fin x⟩ ⟨FP.fin 0⟩ = Velocity.NEG_INFINITY) ∧
      (x = 0 → Delta.divTime ⟨FP.fin x⟩ ⟨FP.fin 0⟩ = Velocity.NAN) := by
  intro x
  refine ⟨fun h => ?_, fun h => ?_, fun h => ?_⟩
  · simp [Delta.divTime, FP.div, h, Velocity.INFINITY]
  · simp [Delta.divTime, FP.div, h, not_lt.mpr h.le, Velocity.NEG_INFINITY]
  · simp [Delta.divTime, FP.div, h, Velocity.NAN]

/-- Closed instances of `div_by_zero_sentinels` at dividends `1`, `-1`
and `0`. -/
theorem div_by_zero_sentinels_witness :
    Delta.divTime ⟨FP.fin 1⟩ ⟨FP.fin 0⟩ = Velocity.INFINITY ∧
    Delta.divTime ⟨FP.fin (-1)⟩ ⟨FP.fin 0⟩ = Velocity.NEG_INFINITY ∧
    Delta.divTime ⟨FP.fin 0⟩ ⟨FP.fin 0⟩ = Velocity.NAN :=
  ⟨(div_by_zero_sentinels 1).1 (by norm_num),
   (div_by_zero_sentinels (-1)).2.1 (by norm_num),
   (div_by_zero_sentinels 0).2.2 rfl⟩

/-- C9 counterexample: converting the negative time `Time(-1.0)` into a
`Duration` aborts (`Duration::from_secs_f32` panics on negative input;
the panic is modelled as `none`). -/
theorem time_into_duration_negative_cex :
    Time.intoDuration ⟨FP.fin (-1)⟩ = none := by
  simp [Time.intoDuration, durationFromSecsF32]

/-- C9 amended: every operation of the library is total except the
bounded-factor construction/validation (`try_from` and the panicking
`SpeedFactor` scalar `Mul`/`Div` impls) and `Time` into `Duration`,
which succeeds exactly on finite, non-negative, non-overflowing
seconds values — in particular it aborts on negative times. -/
theorem time_into_duration_domain :
    ∀ t : Time, (Time.intoDuration t).isSome = true ↔
      ∃ x : ℚ, t.val = FP.fin x ∧ 0 ≤ x ∧ x ≤ durationMaxSecs := by
  intro t
  obtain ⟨v⟩ := t
  cases v with
  | fin x =>
      by_cases h : 0 ≤ x ∧ x ≤ durationMaxSecs
      · simp [Time.intoDuration, durationFromSecsF32, h]
      · simp [Time.intoDuration, durationFromSecsF32, h]
  | inf => simp [Time.intoDuration, durationFromSecsF32]
  | ninf => simp [Time.intoDuration, durationFromSecsF32]
  | nan => simp [Time.intoDuration, durationFromSecsF32]

/-- C10: the `Div` impls between `SpeedFactor` and `f32` do not divide:
each computes the validated product of the wrapped value with the
scalar, exactly as the corresponding `Mul` impl does, panicking (modelled
`none`) when the product leaves `(0.0, 1.0]`.  Concretely,
`SpeedFactor(0.5) / 2.0` yields `SpeedFactor(1.0)` — not the quotient
`0.25` — and `SpeedFactor(1.0) / 2.0` panics. -/
theorem speedfactor_div_is_validated_mul :
    (∀ (s : SpeedFactor) (f : FP),
      SpeedFactor.divF32 s f = SpeedFactor.mulF32 s f ∧
      SpeedFactor.f32Div f s = SpeedFactor.f32Mul f s) ∧
    SpeedFactor.divF32 ⟨FP.fin (1/2)⟩ (FP.fin 2) = some ⟨FP.fin 1⟩ ∧
    SpeedFactor.divF32 ⟨FP.fin (1/2)⟩ (FP.fin 2) ≠ some ⟨FP.fin (1/4)⟩ ∧
    SpeedFactor.divF32 ⟨FP.fin 1⟩ (FP.fin 2) = none := by
  refine ⟨fun s f => ⟨rfl, rfl⟩, ?_, ?_, ?_⟩
  · show (SpeedFactor.tryFrom ((FP.fin (1/2)).mul (FP.fin 2))).toOption = some ⟨FP.fin 1⟩
    norm_num [FP.mul, SpeedFactor.tryFrom, FP.le, FP.lt, Except.toOption]
  · show (SpeedFactor.tryFrom ((FP.fin (1/2)).mul (FP.fin 2))).toOption ≠ some ⟨FP.fin (1/4)⟩
    norm_num [FP.mul, SpeedFactor.tryFrom, FP.le, FP.lt, Except.toOption]
  · show (SpeedFactor.tryFrom ((FP.fin 1).mul (FP.fin 2))).toOption = none
    norm_num [FP.mul, SpeedFactor.tryFrom, FP.le, FP.lt, Except.toOption]

end Syunit

